import Mathlib

/-
  Verification development for the ADIS16000 Arduino driver
  (src/lib/ADIS16000.cpp).

  The driver is shallowly embedded: every SPI-visible action of the code
  (chip-select edges, byte transfers, delays, reset-line edges) is recorded
  as an event, and the attached device is an explicit transducer that
  receives the MOSI bytes and produces the MISO bytes.  Machine integers
  are Nat with explicit masks (mod 256 for uint8_t, mod 65536 for
  uint16_t), and int16_t results are Int via int16OfBits.  The C float
  values are idealised as rationals; the facts proved about them (exact
  zero, sign) are insensitive to rounding.

  The register-address constants come from the header ADIS16000.h, which
  is not part of the sources; the register map is therefore kept abstract
  (a Regs record of Nat fields), and concrete placeholder values are used
  only where a closed evaluation is needed.

  Call-level events (wrCall, rdCall, store) are pure instrumentation: they
  record that the code invoked regWrite or regRead, or stored into a local
  buffer, and carry no bus traffic.  Bus-level statements only inspect the
  csLow, csHigh and xfer events.
-/

namespace ADIS16000

/-- One observable action of the driver: chip-select edges, reset-line
edges, a single SPI byte transfer (MOSI byte out, MISO byte in), blocking
delays, and instrumentation markers for register-access calls and local
buffer stores. -/
inductive Ev where
  | csLow : Ev
  | csHigh : Ev
  | rstLow : Ev
  | rstHigh : Ev
  | xfer : Nat → Nat → Ev
  | delayUs : Nat → Ev
  | delayMs : Nat → Ev
  | wrCall : Nat → Nat → Ev
  | rdCall : Nat → Ev
  | store : Nat → Int → Ev
  deriving DecidableEq

/-- The device on the other side of the SPI bus, as a transducer over a
device-state type: it observes chip-select edges and answers each
transferred byte with a response byte. -/
structure Bus (σ : Type) where
  onCsLow : σ → σ
  onCsHigh : σ → σ
  onXfer : σ → Nat → Nat × σ

/-- A device that ignores chip select and answers every transfer with 0. -/
def zeroBus : Bus Unit where
  onCsLow := fun _ => ()
  onCsHigh := fun _ => ()
  onXfer := fun _ _ => (0, ())

/-- A device that answers the n-th transfer of the session with the n-th
byte of a fixed stream, regardless of the bytes it receives.  Quantifying
over the stream captures every possible sequence of response bytes. -/
def streamBus : Bus ((Nat → Nat) × Nat) where
  onCsLow := fun d => d
  onCsHigh := fun d => d
  onXfer := fun d _ => (d.1 d.2, (d.1, d.2 + 1))

/-- Conversion of a 16-bit pattern to the value of the C int16_t holding
it (two's complement). -/
def int16OfBits (n : Nat) : Int :=
  if n % 65536 < 32768 then ((n % 65536 : Nat) : Int)
  else ((n % 65536 : Nat) : Int) - 65536

/-- Embedding of int16_t ADIS16000::regRead(uint8_t regAddr), lines 84 to
114 of ADIS16000.cpp.  First transaction writes the register address plus
a fill byte under one chip-select pulse; after a 15 us delay the second
transaction clocks out two bytes (MSB first); after another 15 us delay
the int16_t (msb shifted left 8) OR (lsb AND 0xFF) is returned.  Returns
(result, device state, event trace). -/
def regRead {σ : Type} (B : Bus σ) (regAddr : Nat) (dv : σ) :
    Int × σ × List Ev :=
  let a := regAddr % 256
  let dv1 := B.onCsLow dv
  let x1 := B.onXfer dv1 a
  let x2 := B.onXfer x1.2 0
  let dv2 := B.onCsHigh x2.2
  let dv3 := B.onCsLow dv2
  let x3 := B.onXfer dv3 0
  let x4 := B.onXfer x3.2 0
  let dv4 := B.onCsHigh x4.2
  let msb := x3.1 % 256
  let lsb := x4.1 % 256
  (int16OfBits ((msb <<< 8) ||| (lsb &&& 0xFF)),
   dv4,
   [Ev.rdCall a, Ev.csLow, Ev.xfer a (x1.1 % 256), Ev.xfer 0 (x2.1 % 256),
    Ev.csHigh, Ev.delayUs 15, Ev.csLow, Ev.xfer 0 (x3.1 % 256),
    Ev.xfer 0 (x4.1 % 256), Ev.csHigh, Ev.delayUs 15])

/-- Embedding of int ADIS16000::regWrite(uint8_t regAddr, uint16_t
regData), lines 123 to 144 of ADIS16000.cpp.  The code packs the two
16-bit address-plus-data words and then calls SPI.transfer on
(uint8_t)lowWord and (uint8_t)highWord: the cast keeps only the low byte
of each word, which the mod 256 on the transferred value models.  A 25 us
delay follows and 1 is returned. -/
def regWrite {σ : Type} (B : Bus σ) (regAddr regData : Nat) (dv : σ) :
    Nat × σ × List Ev :=
  let a := regAddr % 256
  let d := regData % 65536
  let addr := ((a &&& 0x7F) ||| 0x80) <<< 8
  let lowWord := addr ||| (d &&& 0xFF)
  let highWord := (addr ||| 0x100) ||| ((d >>> 8) &&& 0xFF)
  let dv1 := B.onCsLow dv
  let x1 := B.onXfer dv1 (lowWord % 256)
  let x2 := B.onXfer x1.2 (highWord % 256)
  let dv2 := B.onCsHigh x2.2
  (1, dv2,
   [Ev.wrCall a d, Ev.csLow, Ev.xfer (lowWord % 256) (x1.1 % 256),
    Ev.xfer (highWord % 256) (x2.1 % 256), Ev.csHigh, Ev.delayUs 25])

/-- Embedding of int ADIS16000::resetDUT(uint8_t ms), lines 58 to 64:
reset line low, a fixed 100 ms delay, reset line high, then the
caller-specified delay (a uint8_t), then return 1. -/
def resetDUT (ms : Nat) : Nat × List Ev :=
  (1, [Ev.rstLow, Ev.delayMs 100, Ev.rstHigh, Ev.delayMs (ms % 256)])

/-- Embedding of the constructor ADIS16000::ADIS16000(int CS, int RST),
lines 33 to 45: after the SPI bus set-up (no CS or RST activity) it
drives CS high and then RST high.  Only the pin edges are recorded. -/
def constructTrace : List Ev := [Ev.csHigh, Ev.rstHigh]

/-- The MOSI bytes of a trace, in order. -/
def mosiBytes (t : List Ev) : List Nat :=
  t.filterMap fun e =>
    match e with
    | Ev.xfer m _ => some m
    | _ => none

/-- The register-write calls (address, data) recorded in a trace. -/
def regWrites (t : List Ev) : List (Nat × Nat) :=
  t.filterMap fun e =>
    match e with
    | Ev.wrCall a d => some (a, d)
    | _ => none

/-- The register-access call markers of a trace, writes and reads, in
order. -/
def calls (t : List Ev) : List Ev :=
  t.filter fun e =>
    match e with
    | Ev.wrCall _ _ => true
    | Ev.rdCall _ => true
    | _ => false

/-- The local-buffer stores (index, value) recorded in a trace. -/
def storeList (t : List Ev) : List (Nat × Int) :=
  t.filterMap fun e =>
    match e with
    | Ev.store i v => some (i, v)
    | _ => none

/-- The indices of the local-buffer stores recorded in a trace. -/
def storeIdxs (t : List Ev) : List Nat :=
  t.filterMap fun e =>
    match e with
    | Ev.store i _ => some i
    | _ => none

/-- Modelled from the spec words of claim C1 (section 4.3 of the spec):
the byte sequence a register write would transmit if both 16-bit words
were sent, each as low byte then high byte, four bytes in all. -/
def regWriteClaimBytes (regAddr regData : Nat) : List Nat :=
  let a := regAddr % 256
  let d := regData % 65536
  let addr := ((a &&& 0x7F) ||| 0x80) <<< 8
  let lowWord := addr ||| (d &&& 0xFF)
  let highWord := (addr ||| 0x100) ||| ((d >>> 8) &&& 0xFF)
  [lowWord % 256, lowWord >>> 8, highWord % 256, highWord >>> 8]

/-- Modelled from the spec (section 3 of the spec): the register-address
constants used by the driver come from the header ADIS16000.h, which is
absent from the sources; the spec treats each as an opaque 8-bit
constant, so the register map is a record of abstract Nat fields. -/
structure Regs where
  PAGE_ID : Nat
  GLOB_CMD_G : Nat
  GLOB_CMD_S : Nat
  CMD_DATA : Nat
  BUF_PNTR : Nat
  GPO_CTRL : Nat
  X_BUF : Nat
  Y_BUF : Nat
  UPDAT_INT : Nat
  INT_SCL : Nat

/-- Concrete placeholder register map, used only in closed evaluations;
every general theorem quantifies over the whole record. -/
def regs0 : Regs :=
  ⟨0, 2, 4, 6, 8, 10, 12, 14, 16, 18⟩

/-- Embedding of int addSensor(uint8_t sensorAddr), lines 146 to 151:
a start-join global command, a 500 us delay, then the target address into
the command-data register.  (The source omits the class qualifier on this
one definition; that spelling slip has no behavioural content.) -/
def addSensor {σ : Type} (B : Bus σ) (R : Regs) (sensorAddr : Nat)
    (dv : σ) : Nat × σ × List Ev :=
  let w1 := regWrite B R.GLOB_CMD_G 0x01 dv
  let w2 := regWrite B R.CMD_DATA (sensorAddr % 256) w1.2.1
  (1, w2.2.1, w1.2.2 ++ ([Ev.delayUs 500] ++ w2.2.2))

/-- Embedding of int ADIS16000::removeSensor(uint8_t sensorAddr), lines
153 to 157. -/
def removeSensor {σ : Type} (B : Bus σ) (R : Regs) (sensorAddr : Nat)
    (dv : σ) : Nat × σ × List Ev :=
  let w1 := regWrite B R.CMD_DATA (sensorAddr % 256) dv
  let w2 := regWrite B R.GLOB_CMD_G 0x100 w1.2.1
  (1, w2.2.1, w1.2.2 ++ w2.2.2)

/-- Embedding of int ADIS16000::saveGatewaySettings(), lines 159 to
163. -/
def saveGatewaySettings {σ : Type} (B : Bus σ) (R : Regs) (dv : σ) :
    Nat × σ × List Ev :=
  let w1 := regWrite B R.PAGE_ID 0x00 dv
  let w2 := regWrite B R.GLOB_CMD_G 0x40 w1.2.1
  (1, w2.2.1, w1.2.2 ++ w2.2.2)

/-- Embedding of int ADIS16000::saveSensorSettings(uint8_t sensorAddr),
lines 165 to 171. -/
def saveSensorSettings {σ : Type} (B : Bus σ) (R : Regs)
    (sensorAddr : Nat) (dv : σ) : Nat × σ × List Ev :=
  let w1 := regWrite B R.PAGE_ID (sensorAddr % 256) dv
  let w2 := regWrite B R.GLOB_CMD_S 0x40 w1.2.1
  let w3 := regWrite B R.PAGE_ID 0x00 w2.2.1
  let w4 := regWrite B R.GLOB_CMD_G 0x02 w3.2.1
  (1, w4.2.1, w1.2.2 ++ (w2.2.2 ++ (w3.2.2 ++ w4.2.2)))

/-- Embedding of int ADIS16000::setPeriodicMode(uint16_t interval,
uint8_t scalefactor, uint8_t sensorAddr), lines 211 to 217. -/
def setPeriodicMode {σ : Type} (B : Bus σ) (R : Regs)
    (interval scalefactor sensorAddr : Nat) (dv : σ) :
    Nat × σ × List Ev :=
  let w1 := regWrite B R.PAGE_ID (sensorAddr % 256) dv
  let w2 := regWrite B R.UPDAT_INT (interval % 65536) w1.2.1
  let w3 := regWrite B R.INT_SCL (scalefactor % 256) w2.2.1
  let w4 := regWrite B R.GLOB_CMD_S 0x800 w3.2.1
  (1, w4.2.1, w1.2.2 ++ (w2.2.2 ++ (w3.2.2 ++ w4.2.2)))

/-- Embedding of int ADIS16000::setDataReady(uint8_t dio), lines 195 to
209: select page 0, then for dio 1 write 0x08 to the GPIO control
register and return dio, for dio 2 write 0x20 and return dio, otherwise
return 0.  Line 203 of the source spells the register name with a comma
(GPO,CTRL); it is embedded as the GPIO control register the adjacent
branch uses.  The final guard of the source (dio not equal 1 OR 2) is
always true, so the fall-through returns 0 exactly for dio outside
{1, 2}. -/
def setDataReady {σ : Type} (B : Bus σ) (R : Regs) (dio : Nat)
    (dv : σ) : Nat × σ × List Ev :=
  let d := dio % 256
  let w1 := regWrite B R.PAGE_ID 0x00 dv
  if d == 1 then
    let w2 := regWrite B R.GPO_CTRL 0x08 w1.2.1
    (d, w2.2.1, w1.2.2 ++ w2.2.2)
  else if d == 2 then
    let w2 := regWrite B R.GPO_CTRL 0x20 w1.2.1
    (d, w2.2.1, w1.2.2 ++ w2.2.2)
  else
    (0, w1.2.1, w1.2.2)

/-- Embedding of int16_t * ADIS16000::readFFT(uint8_t sample, uint8_t
sensorAddr), lines 186 to 193: select the sensor page, set the buffer
pointer to the sample index, read the X buffer into element 1 and the Y
buffer into element 2 of a 2-entry local array (index 2 is out of bounds
for the array; the store is recorded as written).  The returned function
is the array contents by index, unwritten slots as 0. -/
def readFFT {σ : Type} (B : Bus σ) (R : Regs) (sample sensorAddr : Nat)
    (dv : σ) : (Nat → Int) × σ × List Ev :=
  let sm := sample % 256
  let sa := sensorAddr % 256
  let w1 := regWrite B R.PAGE_ID sa dv
  let w2 := regWrite B R.BUF_PNTR sm w1.2.1
  let r1 := regRead B R.X_BUF w2.2.1
  let r2 := regRead B R.Y_BUF r1.2.1
  let buf : Nat → Int := fun j => if j = 2 then r2.1 else if j = 1 then r1.1 else 0
  (buf, r2.2.1,
   w1.2.2 ++ (w2.2.2 ++ ((r1.2.2 ++ [Ev.store 1 r1.1])
     ++ (r2.2.2 ++ [Ev.store 2 r2.1]))))

/-- One iteration of the readFFTBuffer loop, lines 179 to 182: read the
X buffer into index i, then the Y buffer into index i + 256.  The pair
carries the device state and the trace accumulated so far. -/
def fftStep {σ : Type} (B : Bus σ) (R : Regs) (p : σ × List Ev)
    (i : Nat) : σ × List Ev :=
  let r1 := regRead B R.X_BUF p.1
  let r2 := regRead B R.Y_BUF r1.2.1
  (r2.2.1,
   p.2 ++ (r1.2.2 ++ ([Ev.store i r1.1]
     ++ (r2.2.2 ++ [Ev.store (i + 256) r2.1]))))

/-- Embedding of int16_t * ADIS16000::readFFTBuffer(uint8_t sensorAddr),
lines 173 to 184: select the sensor page, reset the buffer pointer,
issue the start-acquisition and send-to-sensor commands, then loop.  The
loop header of the source (for i = 0; i lt 511 comma i increment) is
malformed C++ and the two store targets bufferx and buffery are never
declared; the loop is embedded under its evident intended reading, i
from 0 to 510, with the stores recorded by index. -/
def readFFTBuffer {σ : Type} (B : Bus σ) (R : Regs) (sensorAddr : Nat)
    (dv : σ) : σ × List Ev :=
  let w1 := regWrite B R.PAGE_ID (sensorAddr % 256) dv
  let w2 := regWrite B R.BUF_PNTR 0x00 w1.2.1
  let w3 := regWrite B R.GLOB_CMD_S 0x800 w2.2.1
  let w4 := regWrite B R.GLOB_CMD_G 0x2 w3.2.1
  let lp := (List.range 511).foldl (fftStep B R) (w4.2.1, [])
  (lp.1, w1.2.2 ++ (w2.2.2 ++ (w3.2.2 ++ (w4.2.2 ++ lp.2))))

/-- The store indices produced by the readFFTBuffer loop over a list of
iteration indices: each iteration i stores at i and at i + 256. -/
def fftIdxsAux : List Nat → List Nat
  | [] => []
  | i :: tl => i :: (i + 256) :: fftIdxsAux tl

/-- Modelled from the spec (claim C2 and sections 4.3 and 6 of the
spec): the state of a simulated device that echoes register writes into
a register file.  regs is the register file (16-bit values keyed by even
base address), cur the bytes received since chip select fell, pending
the address selected by a read request, outq the response bytes queued
for the current transaction. -/
structure DevSt where
  regs : Nat → Nat
  cur : List Nat
  pending : Option Nat
  outq : List Nat

/-- Modelled from the spec: one 16-bit frame received by the simulated
device, first byte the address byte, second the data byte.  A frame with
the write flag (top bit) set writes its data byte into the low (even
address) or high (odd address) half of the addressed register; a frame
without it selects the address for the next read-out transaction. -/
def procWord (b0 b1 : Nat) (d : DevSt) : DevSt :=
  if 0x80 ≤ b0 % 256 then
    let a := b0 % 256 % 0x80
    let lowUpd : Nat → Nat := fun x =>
      if x = a then (d.regs a / 256 % 256) * 256 + b1 % 256 else d.regs x
    let hiUpd : Nat → Nat := fun x =>
      if x = a - 1 then (b1 % 256) * 256 + d.regs (a - 1) % 256 else d.regs x
    if a % 2 == 0 then { d with regs := lowUpd }
    else { d with regs := hiUpd }
  else
    { d with pending := some (b0 % 256) }

/-- Modelled from the spec: the simulated device parses the bytes of a
finished transaction as consecutive 16-bit frames. -/
def procWords : List Nat → DevSt → DevSt
  | [], d => d
  | [_], d => d
  | b0 :: b1 :: rest, d => procWords rest (procWord b0 b1 d)

/-- Modelled from the spec: the simulated echoing device as a bus
transducer.  When chip select falls with a read pending, the two bytes
of the addressed register are queued MSB first and served to the
following transfers; otherwise each received byte is collected and
answered with 0, and the collected bytes are parsed as frames when chip
select rises. -/
def mockBus : Bus DevSt where
  onCsLow := fun d =>
    match d.pending with
    | some a =>
        { d with
          cur := []
          pending := none
          outq := [d.regs a / 256 % 256, d.regs a % 256] }
    | none => { d with cur := [], outq := [] }
  onCsHigh := fun d => { procWords d.cur d with cur := [] }
  onXfer := fun d b =>
    match d.outq with
    | o :: rest => (o, { d with outq := rest })
    | [] => (0, { d with cur := d.cur ++ [b] })

/-- The simulated device with a zeroed register file and no transaction
in progress. -/
def mock0 : DevSt := ⟨fun _ => 0, [], none, []⟩

/-- C conversion of a floating constant to int: truncation toward zero.
All the constants it is applied to are positive and below one, so the
result is 0 exactly, independent of any floating rounding. -/
def cTrunc (q : ℚ) : Int :=
  if 0 ≤ q.num then q.num / (q.den : Int) else -((-q.num) / (q.den : Int))

/-- The sign adjustment shared by all four scaling functions, lines 221
to 226 and analogues: the int16_t argument is tested on its top bit (the
C test sensorData AND 0x8000 equals 0x8000, which on the 16-bit pattern
is the test raw at least 0x8000) and, when set, 0xFFFF is subtracted
from the int16_t value. -/
def signAdjust (raw : Nat) : Int :=
  let sensorData := int16OfBits raw
  let isNeg := raw % 65536 &&& 0x8000
  if isNeg == 0x8000 then sensorData - 0xFFFF else sensorData

/-- Embedding of float ADIS16000::scaleTime(int16_t sensorData, int
gRange), lines 219 to 246.  The local lsbrange is declared int in the
source, so each float constant of the switch (0.0305, 0.1526, 0.3052,
0.6104, default 0.0305) truncates to 0 on assignment, and the final
multiplication signedData times lsbrange is an int multiplication whose
result is converted to float.  The raw argument is the 16-bit pattern
held by the int16_t parameter. -/
def scaleTime (raw : Nat) (gRange : Int) : ℚ :=
  let signedData := signAdjust raw
  let lsbrange : Int :=
    if gRange == 1 then cTrunc (0.0305 : ℚ)
    else if gRange == 5 then cTrunc (0.1526 : ℚ)
    else if gRange == 10 then cTrunc (0.3052 : ℚ)
    else if gRange == 20 then cTrunc (0.6104 : ℚ)
    else cTrunc (0.0305 : ℚ)
  ((signedData * lsbrange : Int) : ℚ)

/-- Embedding of float ADIS16000::scaleFFT(int16_t sensorData, int
gRange), lines 248 to 275, with the same int-declared lsbrange and the
constants 0.0153, 0.0763, 0.1526, 0.3052, default 0.0153. -/
def scaleFFT (raw : Nat) (gRange : Int) : ℚ :=
  let signedData := signAdjust raw
  let lsbrange : Int :=
    if gRange == 1 then cTrunc (0.0153 : ℚ)
    else if gRange == 5 then cTrunc (0.0763 : ℚ)
    else if gRange == 10 then cTrunc (0.1526 : ℚ)
    else if gRange == 20 then cTrunc (0.3052 : ℚ)
    else cTrunc (0.0153 : ℚ)
  ((signedData * lsbrange : Int) : ℚ)

/-- Embedding of float ADIS16000::scaleSupply(int16_t sensorData), lines
277 to 287: sign adjustment then multiplication by the floating constant
0.00044 (an int times double multiplication, idealised over the
rationals). -/
def scaleSupply (raw : Nat) : ℚ :=
  (signAdjust raw : ℚ) * (0.00044 : ℚ)

/-- Embedding of float ADIS16000::scaleTemp(int16_t sensorData), lines
289 to 299: sign adjustment then multiplication by 0.0815. -/
def scaleTemp (raw : Nat) : ℚ :=
  (signAdjust raw : ℚ) * (0.0815 : ℚ)

/-- A fold recording the level of the reset line over a trace. -/
def rstLevelAfter (t : List Ev) (b : Bool) : Bool :=
  t.foldl (fun l e =>
    match e with
    | Ev.rstLow => false
    | Ev.rstHigh => true
    | _ => l) b

/-- One step of the chip-select discipline automaton.  The state some
false means chip select is high with no transaction open, some true
means a transaction is open; none records a violation.  Inside a
transaction only byte transfers may occur; delays, reset edges and
instrumentation markers may occur only outside. -/
def csStep : Option Bool → Ev → Option Bool
  | some false, Ev.csLow => some true
  | some true, Ev.csHigh => some false
  | some true, Ev.xfer _ _ => some true
  | some false, Ev.csHigh => none
  | some false, Ev.xfer _ _ => none
  | some true, _ => none
  | some false, _ => some false
  | none, _ => none

/-- Run of the chip-select discipline automaton over a trace. -/
def csRun (t : List Ev) (st : Option Bool) : Option Bool :=
  t.foldl csStep st

/-- A trace is chip-select disciplined when, starting with chip select
high, it alternates complete assert-transfer-deassert transactions and
ends with chip select high again. -/
def csDisciplined (t : List Ev) : Prop :=
  csRun t (some false) = some false

/-- A fold recording the level of the chip-select line over a trace
(true meaning high, the inactive level). -/
def csLevelAfter (t : List Ev) (b : Bool) : Bool :=
  t.foldl (fun l e =>
    match e with
    | Ev.csLow => false
    | Ev.csHigh => true
    | _ => l) b

lemma cTrunc_lt_one (q : ℚ) (h0 : 0 ≤ q) (h1 : q < 1) :
    cTrunc q = 0 := by
  have hn : 0 ≤ q.num := Rat.num_nonneg.mpr h0
  unfold cTrunc
  rw [if_pos hn]
  apply Int.ediv_eq_zero_of_lt hn
  exact_mod_cast Rat.lt_one_iff_num_lt_denom.mp h1

lemma scaleTime_zero (raw : Nat) (gRange : Int) : scaleTime raw gRange = 0 := by
  unfold scaleTime
  split_ifs <;>
    · rw [cTrunc_lt_one _ (by norm_num) (by norm_num)]
      simp

lemma scaleFFT_zero (raw : Nat) (gRange : Int) : scaleFFT raw gRange = 0 := by
  unfold scaleFFT
  split_ifs <;>
    · rw [cTrunc_lt_one _ (by norm_num) (by norm_num)]
      simp

lemma signAdjust_hi : signAdjust 0x8000 = -98303 := by decide

lemma mod256_mod65536 (n : Nat) : n % 256 % 65536 = n % 256 :=
  Nat.mod_eq_of_lt (lt_of_lt_of_le (Nat.mod_lt n (by norm_num)) (by norm_num))

lemma storeIdxs_append (a b : List Ev) :
    storeIdxs (a ++ b) = storeIdxs a ++ storeIdxs b :=
  List.filterMap_append a b _

lemma storeIdxs_regRead {σ : Type} (B : Bus σ) (a : Nat) (dv : σ) :
    storeIdxs (regRead B a dv).2.2 = [] := rfl

lemma storeIdxs_regWrite {σ : Type} (B : Bus σ) (a d : Nat) (dv : σ) :
    storeIdxs (regWrite B a d dv).2.2 = [] := rfl

lemma storeIdxs_single (i : Nat) (v : Int) :
    storeIdxs [Ev.store i v] = [i] := rfl

lemma fftFold_stores {σ : Type} (B : Bus σ) (R : Regs) :
    ∀ (l : List Nat) (p : σ × List Ev),
      storeIdxs ((l.foldl (fftStep B R) p).2) = storeIdxs p.2 ++ fftIdxsAux l := by
  intro l
  induction l with
  | nil => intro p; simp [fftIdxsAux]
  | cons i tl ih =>
    intro p
    rw [List.foldl_cons, ih]
    show storeIdxs (fftStep B R p i).2 ++ fftIdxsAux tl
      = storeIdxs p.2 ++ fftIdxsAux (i :: tl)
    simp only [fftStep]
    rw [storeIdxs_append, storeIdxs_append, storeIdxs_append, storeIdxs_append,
      storeIdxs_regRead, storeIdxs_regRead, storeIdxs_single, storeIdxs_single]
    simp [fftIdxsAux]

lemma csRun_append (a b : List Ev) (st : Option Bool) :
    csRun (a ++ b) st = csRun b (csRun a st) := by
  simp [csRun, List.foldl_append]

lemma csLevelAfter_append (a b : List Ev) (x : Bool) :
    csLevelAfter (a ++ b) x = csLevelAfter b (csLevelAfter a x) := by
  simp [csLevelAfter, List.foldl_append]

lemma regWrite_cs {σ : Type} (B : Bus σ) (a d : Nat) (dv : σ) :
    csRun (regWrite B a d dv).2.2 (some false) = some false := rfl

lemma regRead_cs {σ : Type} (B : Bus σ) (a : Nat) (dv : σ) :
    csRun (regRead B a dv).2.2 (some false) = some false := rfl

lemma regWrite_lvl {σ : Type} (B : Bus σ) (a d : Nat) (dv : σ) :
    csLevelAfter (regWrite B a d dv).2.2 true = true := rfl

lemma regRead_lvl {σ : Type} (B : Bus σ) (a : Nat) (dv : σ) :
    csLevelAfter (regRead B a dv).2.2 true = true := rfl

lemma fftFold_cs {σ : Type} (B : Bus σ) (R : Regs) :
    ∀ (l : List Nat) (p : σ × List Ev),
      csRun p.2 (some false) = some false →
      csRun ((l.foldl (fftStep B R) p).2) (some false) = some false := by
  intro l
  induction l with
  | nil => intro p h; exact h
  | cons i tl ih =>
    intro p h
    rw [List.foldl_cons]
    apply ih
    show csRun (fftStep B R p i).2 (some false) = some false
    simp only [fftStep]
    rw [csRun_append, h]
    rfl

lemma fftFold_lvl {σ : Type} (B : Bus σ) (R : Regs) :
    ∀ (l : List Nat) (p : σ × List Ev),
      csLevelAfter p.2 true = true →
      csLevelAfter ((l.foldl (fftStep B R) p).2) true = true := by
  intro l
  induction l with
  | nil => intro p h; exact h
  | cons i tl ih =>
    intro p h
    rw [List.foldl_cons]
    apply ih
    show csLevelAfter (fftStep B R p i).2 true = true
    simp only [fftStep]
    rw [csLevelAfter_append, h]
    rfl

/-- Sanity check of the simulated device of claim C2: a write frame of
two full 16-bit words (write-flagged address byte then data byte, for
the base address 2 and then address 3), fed to the device as the
four-byte transaction the driver was supposed to produce, lands the
value 0x1234 in register 2, and the driver regRead then returns it. -/
lemma mock_protocol_sanity :
    (regRead mockBus 2
      (mockBus.onCsHigh { mock0 with cur := [0x82, 0x34, 0x83, 0x12] })).1
      = 0x1234 := rfl

/-- Claim C1: regWrite is claimed to transmit both packed 16-bit words,
four bytes in all, under one chip-select pulse.  Evaluating the code at
regAddr 0x02, regData 0xABCD shows the defect: the (uint8_t) casts keep
only the low byte of each word, so exactly two bytes go out, 0xCD and
0xAB, which are the two data bytes; the write-flagged address bytes 0x82
and 0x83 of the claimed four-byte frame are never transmitted.  The
single chip-select pulse and the return value 1 do match the claim. -/
theorem regWrite_frame_truncated :
    mosiBytes (regWrite zeroBus 2 0xABCD ()).2.2 = [0xCD, 0xAB]
    ∧ (mosiBytes (regWrite zeroBus 2 0xABCD ()).2.2).length = 2
    ∧ regWriteClaimBytes 2 0xABCD = [0xCD, 0x82, 0xAB, 0x83]
    ∧ decide (mosiBytes (regWrite zeroBus 2 0xABCD ()).2.2
        = regWriteClaimBytes 2 0xABCD) = false
    ∧ (regWrite zeroBus 2 0xABCD ()).1 = 1
    ∧ (regWrite zeroBus 2 0xABCD ()).2.2 =
        [Ev.wrCall 2 0xABCD, Ev.csLow, Ev.xfer 0xCD 0, Ev.xfer 0xAB 0,
         Ev.csHigh, Ev.delayUs 25] := by
  refine ⟨rfl, rfl, rfl, rfl, rfl, rfl⟩

/-- Claim C2: writing 0x1234 to register 2 and reading register 2 back
against the simulated device that echoes writes into a register file
returns 0, not the written value: the transmitted write frame carries
only the two data bytes (the address was truncated away), so the
register file is never written. -/
theorem regWrite_regRead_roundtrip_fails :
    (regRead mockBus 2 (regWrite mockBus 2 0x1234 mock0).2.1).1 = 0
    ∧ decide ((regRead mockBus 2 (regWrite mockBus 2 0x1234 mock0).2.1).1
        = (0x1234 : Int)) = false := by
  exact ⟨rfl, rfl⟩

/-- Claim C3: scaleTime and scaleFFT are claimed to multiply the
sign-adjusted sample by the range-selected constant of their tables.
In the source the switch target lsbrange is declared int, so every
constant truncates to 0 and both functions return 0 for every sample and
every range selector; at sample 1 with range 1 the claimed results would
be 0.0305 and 0.0153. -/
theorem scaleTime_scaleFFT_return_zero (raw : Nat) (gRange : Int) :
    scaleTime raw gRange = 0 ∧ scaleFFT raw gRange = 0 :=
  ⟨scaleTime_zero raw gRange, scaleFFT_zero raw gRange⟩

/-- Claim C4: for every channel selector, setDataReady first writes 0 to
the page register; for selector 1 it then writes the pattern 0x08 to the
GPIO control register and returns 1, for selector 2 it writes 0x20 and
returns 2, and for every other selector it returns the 0 sentinel with
no further register write beyond the page select. -/
theorem setDataReady_cases (σ : Type) (B : Bus σ) (R : Regs) (dv : σ)
    (dio : Nat) :
    regWrites (setDataReady B R dio dv).2.2 =
      (if dio % 256 = 1 then [(R.PAGE_ID % 256, 0), (R.GPO_CTRL % 256, 0x08)]
       else if dio % 256 = 2 then [(R.PAGE_ID % 256, 0), (R.GPO_CTRL % 256, 0x20)]
       else [(R.PAGE_ID % 256, 0)])
    ∧ (setDataReady B R dio dv).1 =
      (if dio % 256 = 1 then 1 else if dio % 256 = 2 then 2 else 0) := by
  by_cases h1 : dio % 256 = 1
  · simp [setDataReady, regWrites, regWrite, h1]
  · by_cases h2 : dio % 256 = 2
    · simp [setDataReady, regWrites, regWrite, h1, h2]
    · simp [setDataReady, regWrites, regWrite, h1, h2]

/-- Claim C5: every raw sample with the top bit set is claimed to be
sign-adjusted by subtracting 0xFFFF with a negative scaled output, and
raw 0 is claimed to scale to exactly 0.  The sign adjustment itself is
as claimed in all four functions, and scaleSupply and scaleTemp behave
as claimed at 0x8000 and 0; but scaleTime and scaleFFT return exactly 0
at 0x8000 (the int-declared lsbrange truncates every constant to 0), so
their outputs are not negative there, against the claim. -/
theorem scale_sign_extension_eval :
    signAdjust 0x8000 = int16OfBits 0x8000 - 0xFFFF
    ∧ scaleSupply 0x8000 < 0
    ∧ scaleTemp 0x8000 < 0
    ∧ scaleSupply 0 = 0
    ∧ scaleTemp 0 = 0
    ∧ scaleTime 0 1 = 0
    ∧ scaleFFT 0 1 = 0
    ∧ scaleTime 0x8000 1 = 0
    ∧ scaleFFT 0x8000 1 = 0 := by
  refine ⟨by decide, ?_, ?_, ?_, ?_, scaleTime_zero 0 1, scaleFFT_zero 0 1,
    scaleTime_zero 0x8000 1, scaleFFT_zero 0x8000 1⟩
  · unfold scaleSupply
    rw [signAdjust_hi]
    norm_num
  · unfold scaleTemp
    rw [signAdjust_hi]
    norm_num
  · unfold scaleSupply
    rw [show signAdjust 0 = 0 from by decide]
    norm_num
  · unfold scaleTemp
    rw [show signAdjust 0 = 0 from by decide]
    norm_num

/-- Claim C6 as stated, evaluated at sample 5, sensor address 3: the
sample read issues two register-write calls, not the claimed three, and
its stores land at indices 1 and 2, not at the claimed 0 and 1. -/
theorem readFFT_counterexample :
    (regWrites (readFFT zeroBus regs0 5 3 ()).2.2).length = 2
    ∧ storeIdxs (readFFT zeroBus regs0 5 3 ()).2.2 = [1, 2]
    ∧ decide ((regWrites (readFFT zeroBus regs0 5 3 ()).2.2).length = 3
        ∧ storeIdxs (readFFT zeroBus regs0 5 3 ()).2.2 = [0, 1]) = false := by
  exact ⟨rfl, rfl, rfl⟩

/-- Claim C6 amended: for every sample index, sensor address and
response stream, readFFT issues exactly two register writes (page select
with the sensor address, then buffer pointer with the sample index) and
two register reads (X buffer then Y buffer), in that order, and stores
the first read value at index 1 and the second at index 2 of its
2-element result, index 2 being out of bounds for the array. -/
theorem readFFT_amended_trace (f : Nat → Nat) (R : Regs)
    (sample sensorAddr : Nat) :
    calls (readFFT streamBus R sample sensorAddr (f, 0)).2.2 =
      [Ev.wrCall (R.PAGE_ID % 256) (sensorAddr % 256),
       Ev.wrCall (R.BUF_PNTR % 256) (sample % 256),
       Ev.rdCall (R.X_BUF % 256), Ev.rdCall (R.Y_BUF % 256)]
    ∧ storeList (readFFT streamBus R sample sensorAddr (f, 0)).2.2 =
      [(1, int16OfBits (((f 6 % 256) <<< 8) ||| ((f 7 % 256) &&& 0xFF))),
       (2, int16OfBits (((f 10 % 256) <<< 8) ||| ((f 11 % 256) &&& 0xFF)))]
    ∧ (readFFT streamBus R sample sensorAddr (f, 0)).1 1 =
        int16OfBits (((f 6 % 256) <<< 8) ||| ((f 7 % 256) &&& 0xFF))
    ∧ (readFFT streamBus R sample sensorAddr (f, 0)).1 2 =
        int16OfBits (((f 10 % 256) <<< 8) ||| ((f 11 % 256) &&& 0xFF)) := by
  refine ⟨?_, rfl, rfl, rfl⟩
  have base : calls (readFFT streamBus R sample sensorAddr (f, 0)).2.2 =
      [Ev.wrCall (R.PAGE_ID % 256) (sensorAddr % 256 % 65536),
       Ev.wrCall (R.BUF_PNTR % 256) (sample % 256 % 65536),
       Ev.rdCall (R.X_BUF % 256), Ev.rdCall (R.Y_BUF % 256)] := rfl
  rw [mod256_mod65536 sensorAddr, mod256_mod65536 sample] at base
  exact base

set_option maxRecDepth 100000 in
/-- Claim C7: the buffer retrieval loop is claimed to keep every store
inside the 512-entry buffer, X axis in the first half and Y axis in the
second half at offset 256.  For every device and sensor address the
stores of readFFTBuffer hit exactly the indices i and i + 256 for i from
0 to 510, so some store (for instance 766) lands at or beyond index 512,
outside the buffer. -/
theorem readFFTBuffer_store_indices (σ : Type) (B : Bus σ) (R : Regs)
    (sensorAddr : Nat) (dv : σ) :
    storeIdxs (readFFTBuffer B R sensorAddr dv).2 = fftIdxsAux (List.range 511)
    ∧ ∃ j, j ∈ storeIdxs (readFFTBuffer B R sensorAddr dv).2 ∧ 512 ≤ j := by
  have h : storeIdxs (readFFTBuffer B R sensorAddr dv).2
      = fftIdxsAux (List.range 511) := by
    simp only [readFFTBuffer]
    rw [storeIdxs_append, storeIdxs_append, storeIdxs_append, storeIdxs_append,
      storeIdxs_regWrite, storeIdxs_regWrite, storeIdxs_regWrite,
      storeIdxs_regWrite, fftFold_stores]
    rfl
  refine ⟨h, 766, ?_, by norm_num⟩
  rw [h]
  decide

/-- Claim C8: for every register address and every response stream,
regRead performs two chip-select-pulsed transactions, the first writing
the address and a fill byte, with a fixed 15 us delay between them,
clocks out two bytes MSB first in the second, waits a further 15 us, and
returns the signed 16-bit value (msb shifted left 8) OR (lsb AND 0xFF). -/
theorem regRead_transaction_spec (f : Nat → Nat) (a : Nat) :
    regRead streamBus a (f, 0) =
      (int16OfBits (((f 2 % 256) <<< 8) ||| ((f 3 % 256) &&& 0xFF)),
       (f, 4),
       [Ev.rdCall (a % 256), Ev.csLow, Ev.xfer (a % 256) (f 0 % 256),
        Ev.xfer 0 (f 1 % 256), Ev.csHigh, Ev.delayUs 15, Ev.csLow,
        Ev.xfer 0 (f 2 % 256), Ev.xfer 0 (f 3 % 256), Ev.csHigh,
        Ev.delayUs 15]) := by
  rfl

/-- Claim C9: for every caller-specified settle delay, resetDUT drives
the reset line low, holds it low behind a fixed 100 ms delay, drives it
high, waits the caller delay (a uint8_t), returns 1, and leaves the
reset line high. -/
theorem resetDUT_spec (ms : Nat) :
    resetDUT ms =
      (1, [Ev.rstLow, Ev.delayMs 100, Ev.rstHigh, Ev.delayMs (ms % 256)])
    ∧ rstLevelAfter (resetDUT ms).2 false = true := by
  exact ⟨rfl, rfl⟩

/-- Claim C10: every driver operation is chip-select disciplined: chip
select is asserted only around complete transfer transactions and is
deasserted again before the operation returns, so starting from the
constructor (which leaves chip select high) the line is high whenever no
operation is in progress. -/
theorem cs_discipline :
    (∀ (σ : Type) (B : Bus σ) (dv : σ) (a d : Nat),
        csDisciplined (regWrite B a d dv).2.2
        ∧ csLevelAfter (regWrite B a d dv).2.2 true = true)
    ∧ (∀ (σ : Type) (B : Bus σ) (dv : σ) (a : Nat),
        csDisciplined (regRead B a dv).2.2
        ∧ csLevelAfter (regRead B a dv).2.2 true = true)
    ∧ (∀ ms : Nat,
        csDisciplined (resetDUT ms).2
        ∧ csLevelAfter (resetDUT ms).2 true = true)
    ∧ (∀ (σ : Type) (B : Bus σ) (R : Regs) (dv : σ) (sa : Nat),
        csDisciplined (addSensor B R sa dv).2.2
        ∧ csLevelAfter (addSensor B R sa dv).2.2 true = true)
    ∧ (∀ (σ : Type) (B : Bus σ) (R : Regs) (dv : σ) (sa : Nat),
        csDisciplined (removeSensor B R sa dv).2.2
        ∧ csLevelAfter (removeSensor B R sa dv).2.2 true = true)
    ∧ (∀ (σ : Type) (B : Bus σ) (R : Regs) (dv : σ),
        csDisciplined (saveGatewaySettings B R dv).2.2
        ∧ csLevelAfter (saveGatewaySettings B R dv).2.2 true = true)
    ∧ (∀ (σ : Type) (B : Bus σ) (R : Regs) (dv : σ) (sa : Nat),
        csDisciplined (saveSensorSettings B R sa dv).2.2
        ∧ csLevelAfter (saveSensorSettings B R sa dv).2.2 true = true)
    ∧ (∀ (σ : Type) (B : Bus σ) (R : Regs) (dv : σ) (iv sf sa : Nat),
        csDisciplined (setPeriodicMode B R iv sf sa dv).2.2
        ∧ csLevelAfter (setPeriodicMode B R iv sf sa dv).2.2 true = true)
    ∧ (∀ (σ : Type) (B : Bus σ) (R : Regs) (dv : σ) (dio : Nat),
        csDisciplined (setDataReady B R dio dv).2.2
        ∧ csLevelAfter (setDataReady B R dio dv).2.2 true = true)
    ∧ (∀ (σ : Type) (B : Bus σ) (R : Regs) (dv : σ) (sm sa : Nat),
        csDisciplined (readFFT B R sm sa dv).2.2
        ∧ csLevelAfter (readFFT B R sm sa dv).2.2 true = true)
    ∧ (∀ (σ : Type) (B : Bus σ) (R : Regs) (dv : σ) (sa : Nat),
        csDisciplined (readFFTBuffer B R sa dv).2
        ∧ csLevelAfter (readFFTBuffer B R sa dv).2 true = true)
    ∧ (∀ b : Bool, csLevelAfter constructTrace b = true) := by
  refine ⟨?_, ?_, ?_, ?_, ?_, ?_, ?_, ?_, ?_, ?_, ?_, ?_⟩
  · intro σ B dv a d; exact ⟨rfl, rfl⟩
  · intro σ B dv a; exact ⟨rfl, rfl⟩
  · intro ms; exact ⟨rfl, rfl⟩
  · intro σ B R dv sa; exact ⟨rfl, rfl⟩
  · intro σ B R dv sa; exact ⟨rfl, rfl⟩
  · intro σ B R dv; exact ⟨rfl, rfl⟩
  · intro σ B R dv sa; exact ⟨rfl, rfl⟩
  · intro σ B R dv iv sf sa; exact ⟨rfl, rfl⟩
  · intro σ B R dv dio
    by_cases h1 : dio % 256 = 1
    · constructor
      · show csRun (setDataReady B R dio dv).2.2 (some false) = some false
        simp only [setDataReady, h1]
        rfl
      · show csLevelAfter (setDataReady B R dio dv).2.2 true = true
        simp only [setDataReady, h1]
        rfl
    · by_cases h2 : dio % 256 = 2
      · constructor
        · show csRun (setDataReady B R dio dv).2.2 (some false) = some false
          simp only [setDataReady, h1, h2]
          rfl
        · show csLevelAfter (setDataReady B R dio dv).2.2 true = true
          simp only [setDataReady, h1, h2]
          rfl
      · constructor
        · show csRun (setDataReady B R dio dv).2.2 (some false) = some false
          simp only [setDataReady, beq_iff_eq, if_neg h1, if_neg h2]
          exact regWrite_cs B R.PAGE_ID 0 dv
        · show csLevelAfter (setDataReady B R dio dv).2.2 true = true
          simp only [setDataReady, beq_iff_eq, if_neg h1, if_neg h2]
          exact regWrite_lvl B R.PAGE_ID 0 dv
  · intro σ B R dv sm sa; exact ⟨rfl, rfl⟩
  · intro σ B R dv sa
    constructor
    · show csRun (readFFTBuffer B R sa dv).2 (some false) = some false
      simp only [readFFTBuffer]
      rw [csRun_append, regWrite_cs, csRun_append, regWrite_cs,
        csRun_append, regWrite_cs, csRun_append, regWrite_cs]
      exact fftFold_cs B R (List.range 511) _ rfl
    · show csLevelAfter (readFFTBuffer B R sa dv).2 true = true
      simp only [readFFTBuffer]
      rw [csLevelAfter_append, regWrite_lvl, csLevelAfter_append,
        regWrite_lvl, csLevelAfter_append, regWrite_lvl,
        csLevelAfter_append, regWrite_lvl]
      exact fftFold_lvl B R (List.range 511) _ rfl
  · intro b; cases b <;> rfl

end ADIS16000
